import Mathlib

/-!
Verification of the LLMule client's session/dispatch core against its
natural-language specification.

The development is a shallow embedding of the JavaScript sources:

* `src/llmClients.js` — backend adapters (`OllamaClient`, `LMStudioClient`,
  `ExoClient`): generation-parameter defaulting via JavaScript's `||`
  operator, response translation, and token-usage synthesis.
* `src/networkClient.js` (the current revision, the one of its historical
  revisions that defines `activeModels`, `maxConcurrentModels`,
  `sendErrorResponse`, `setupHeartbeat` and `reconnect`) — the
  `handleCompletionRequest` dispatcher, the `activeModels` admission set,
  the reconnect budget, the close-code-4001 terminal path and the
  heartbeat monitor.

Stateful code is embedded as explicit state passing (`ClientState`,
`SessionState`) and step functions; the only effect of a completion
request that the remote side observes — the single `completion_response`
frame — is returned as a value.  The local LLM backend (an HTTP round
trip in the source) is a parameter of the dispatcher, so "no backend call
occurs" is expressed as insensitivity to that parameter, and a backend
failure (network error, thrown `TypeError` for an unknown client type,
adapter exception) is an `Except.error` carrying the JavaScript error
message.
-/

/-- One chat message `{role, content}` as carried in `message.messages`
on the wire and forwarded to the adapters. -/
structure Msg where
  role : String
  content : String
deriving DecidableEq, Repr

/-- Token usage counters as placed in the `usage` field of a completion
response (`prompt_tokens`, `completion_tokens`, `total_tokens`). -/
structure Usage where
  prompt_tokens : Nat
  completion_tokens : Nat
  total_tokens : Nat
deriving DecidableEq, Repr

/-- One element of the OpenAI-style `choices` array: a message plus a
finish reason. -/
structure Choice where
  message : Msg
  finish_reason : String
deriving DecidableEq, Repr

/-- The uniform successful completion shape returned by every adapter:
`{choices, usage}`.  (The LM Studio adapter additionally decorates the
object with `id`/`object`/`created`/`model` metadata, which no claim
concerns and which depends on the wall clock, so it is outside the
model.) -/
structure CompletionResult where
  choices : List Choice
  usage : Usage
deriving DecidableEq, Repr

/-- The error object built by `sendErrorResponse` in
`src/networkClient.js`: `{message, type, code}`. -/
structure ErrorDetail where
  message : String
  type : String
  code : String
deriving DecidableEq, Repr

/-- Payload of a `completion_response` frame: either a successful result
(`response`) or an error object (`response.error`). -/
inductive RespPayload where
  | ok : CompletionResult → RespPayload
  | err : ErrorDetail → RespPayload
deriving DecidableEq, Repr

/-- A `completion_response` wire frame (the `type` discriminator is
constant and omitted): `{requestId, response}`. -/
structure CompletionResponse where
  requestId : String
  response : RespPayload
deriving DecidableEq, Repr

/-- The error code of a response, when the response is an error. -/
def CompletionResponse.errorCode : CompletionResponse → Option String
  | ⟨_, RespPayload.err d⟩ => some d.code
  | ⟨_, RespPayload.ok _⟩ => none

/-- `sendErrorResponse(requestId, errorMessage)` from
`src/networkClient.js`: every error response carries the fixed
`type: "server_error"` and `code: "internal_error"`. -/
def sendErrorResponse (requestId : String) (errorMessage : String) : CompletionResponse :=
  { requestId := requestId
    response := RespPayload.err
      { message := errorMessage, type := "server_error", code := "internal_error" } }

/-- A registered model descriptor `{name, type}` as produced by the
model detector and held in `this.models`. -/
structure ModelInfo where
  name : String
  type : String
deriving DecidableEq, Repr

/-- Generation options forwarded to an adapter.  A `none` field models a
JavaScript `undefined` (the field absent from the wire message);
temperatures are rationals, faithful to the exact decimal literals in
the source. -/
structure CallOpts where
  temperature : Option ℚ
  max_tokens : Option Nat
deriving DecidableEq, Repr

/-- A `completion_request` wire frame:
`{requestId, model, messages, temperature?, max_tokens?}`. -/
structure WorkRequest where
  requestId : String
  model : String
  messages : List Msg
  temperature : Option ℚ
  max_tokens : Option Nat
deriving DecidableEq, Repr

/-! ### Backend adapters (`src/llmClients.js`) -/

/-- JavaScript `v || d` on a possibly-absent number: `undefined` and `0`
are falsy, any other rational is truthy. -/
def jsOrRat (v : Option ℚ) (d : ℚ) : ℚ :=
  match v with
  | none => d
  | some x => if x = 0 then d else x

/-- JavaScript `v || d` on a possibly-absent nonnegative integer:
`undefined` and `0` are falsy. -/
def jsOrNat (v : Option Nat) (d : Nat) : Nat :=
  match v with
  | none => d
  | some x => if x = 0 then d else x

/-- The effective generation parameters the Ollama adapter puts in its
HTTP body: `options.temperature || 0.7` and `options.max_tokens || 4096`
(`OllamaClient.generateCompletion`). -/
def ollamaOptions (o : CallOpts) : ℚ × Nat :=
  (jsOrRat o.temperature (7 / 10), jsOrNat o.max_tokens 4096)

/-- The effective generation parameters of the LM Studio adapter:
`options.temperature || 0.7`, `options.max_tokens || 4096`
(`LMStudioClient.generateCompletion`). -/
def lmStudioOptions (o : CallOpts) : ℚ × Nat :=
  (jsOrRat o.temperature (7 / 10), jsOrNat o.max_tokens 4096)

/-- The effective generation parameters of the EXO adapter:
`options.temperature || 0.7`, `options.max_tokens || 4096`
(`ExoClient.generateCompletion`). -/
def exoOptions (o : CallOpts) : ℚ × Nat :=
  (jsOrRat o.temperature (7 / 10), jsOrNat o.max_tokens 4096)

/-- `OllamaClient._estimateTokenCount(messages)`: sum the character
lengths of the message contents and return `Math.ceil(totalChars / 4)`;
on naturals `⌈c / 4⌉ = (c + 3) / 4`.  (The source also accepts bare
strings in the list; at both call sites the list holds `{role, content}`
objects, which is what `Msg` models.  An absent or empty `content` is
skipped by the source's `else if (msg.content)` test and contributes 0,
exactly as an empty string does here.) -/
def estimateTokenCount (messages : List Msg) : Nat :=
  let totalChars := messages.foldl (fun acc msg => acc + msg.content.length) 0
  (totalChars + 3) / 4

/-- `OllamaClient.generateCompletion`'s translation of a successful
Ollama reply (`response.data.message`) into the uniform shape: a single
assistant choice, and a synthesized `usage` whose prompt count estimates
the request messages, whose completion count estimates the reply
message, and whose total is their sum. -/
def ollamaTranslate (respMessage : Msg) (messages : List Msg) : CompletionResult :=
  let usage : Usage :=
    { prompt_tokens := estimateTokenCount messages
      completion_tokens := estimateTokenCount [respMessage]
      total_tokens := estimateTokenCount messages + estimateTokenCount [respMessage] }
  { choices := [{ message := { role := "assistant", content := respMessage.content }
                  finish_reason := "stop" }]
    usage := usage }

/-- `LMStudioClient.generateCompletion`'s translation of a successful
LM Studio reply: the backend's `choices` pass through unchanged and
`usage` is `response.data.usage || {prompt_tokens: 0, completion_tokens:
0, total_tokens: 0}` — a zero fallback when the backend reports no
usage.  (`ExoClient` uses the identical fallback.) -/
def lmStudioTranslate (choices : List Choice) (nativeUsage : Option Usage) : CompletionResult :=
  { choices := choices
    usage := nativeUsage.getD { prompt_tokens := 0, completion_tokens := 0, total_tokens := 0 } }

/-! ### The dispatcher (`handleCompletionRequest` in `src/networkClient.js`) -/

/-- The backend capability invoked inside the dispatcher's `try` block:
`client.generateCompletion(modelInfo.name, message.messages, {...})`.
An `Except.error` is any JavaScript exception thrown by that call
(adapter HTTP failure, or the `TypeError` raised when
`this.llmClients[modelInfo.type]` is `undefined`), carrying
`error.message`. -/
def Backend : Type :=
  ModelInfo → List Msg → CallOpts → Except String CompletionResult

/-- The mutable fields of `NetworkClient` that the dispatcher reads or
writes: the registered model list, the `activeModels` admission set, the
`maxConcurrentModels` bound, and the two statistics counters. -/
structure ClientState where
  models : List ModelInfo
  activeModels : Finset String
  maxConcurrentModels : Nat
  totalRequestsHandled : Nat
  totalTokensProcessed : Nat
deriving DecidableEq

/-- `parseInt(process.env.MAX_CONCURRENT_MODELS || '2')`: the default
concurrency bound. -/
def defaultMaxConcurrentModels : Nat := 2

/-- The `NetworkClient` constructor's dispatcher-relevant
initialization: `activeModels = new Set()`, zero counters. -/
def initClientState (models : List ModelInfo) (maxConcurrentModels : Nat) : ClientState :=
  { models := models
    activeModels := ∅
    maxConcurrentModels := maxConcurrentModels
    totalRequestsHandled := 0
    totalTokensProcessed := 0 }

/-- `handleCompletionRequest(message)` from `src/networkClient.js`,
returning the updated client state and the single `completion_response`
frame written to the socket.  Control flow of the source:

1. `this.models.find(m => m.name === message.model)`; on `undefined`,
   `sendErrorResponse(requestId, "Model ... not available")` and return.
2. Inside `try`: if `activeModels.size >= maxConcurrentModels` and the
   model is not already in `activeModels`, throw
   `"Maximum concurrent models reached"`; the `catch` converts the
   throw into `sendErrorResponse(requestId, error.message)` and the
   `finally` runs `activeModels.delete(message.model)` (a no-op here,
   since the rejection requires the model not to be in the set).
3. Otherwise `activeModels.add(message.model)`, call the backend with
   the request's raw `temperature`/`max_tokens`; on success update the
   statistics counters and send `{requestId, response}`; on any thrown
   error send `sendErrorResponse(requestId, error.message)`.  Either
   way the `finally` deletes the model from `activeModels`. -/
def handleCompletionRequest (backend : Backend) (s : ClientState) (m : WorkRequest) :
    ClientState × CompletionResponse :=
  match s.models.find? (fun mi => mi.name == m.model) with
  | none =>
      (s, sendErrorResponse m.requestId ("Model " ++ m.model ++ " not available"))
  | some modelInfo =>
      if s.maxConcurrentModels ≤ s.activeModels.card ∧ m.model ∉ s.activeModels then
        ({ s with activeModels := s.activeModels.erase m.model },
          sendErrorResponse m.requestId "Maximum concurrent models reached")
      else
        let s1 := { s with activeModels := insert m.model s.activeModels }
        match backend modelInfo m.messages
            { temperature := m.temperature, max_tokens := m.max_tokens } with
        | Except.ok response =>
            ({ s1 with
                activeModels := s1.activeModels.erase m.model
                totalTokensProcessed := s1.totalTokensProcessed + response.usage.total_tokens
                totalRequestsHandled := s1.totalRequestsHandled + 1 },
              { requestId := m.requestId, response := RespPayload.ok response })
        | Except.error emsg =>
            ({ s1 with activeModels := s1.activeModels.erase m.model },
              sendErrorResponse m.requestId emsg)

/-! ### Dispatcher admission as a transition system

The `activeModels` set is mutated at exactly two program points:
the guarded `activeModels.add(message.model)` at admission, and the
`finally` block's `activeModels.delete(message.model)` when a handler
exits (successfully or not).  Because the backend `await` sits between
the two, concurrent requests interleave these mutations arbitrarily;
`DispatcherOp` names the two mutations and `dispatcherStep` gives their
effect, so an execution's interleaving is a `List DispatcherOp`. -/

/-- One `activeModels` mutation: a guarded admission
(`handleCompletionRequest`'s size check followed by `add`) or a handler
exit (the `finally` block's `delete`, on success and failure alike). -/
inductive DispatcherOp where
  | acquire (model : String)
  | finish (model : String)
deriving DecidableEq, Repr

/-- Effect of one `DispatcherOp` on the client state.  An `acquire` — the guarded admission — whose
guard `activeModels.size >= maxConcurrentModels && !activeModels.has(model)`
fires is the rejection path and leaves the set unchanged (the pending
`finally` delete of a model that is not in the set is a no-op);
otherwise the model is inserted.  A `finish` deletes the model. -/
def dispatcherStep (s : ClientState) : DispatcherOp → ClientState
  | DispatcherOp.acquire mdl =>
      if s.maxConcurrentModels ≤ s.activeModels.card ∧ mdl ∉ s.activeModels then s
      else { s with activeModels := insert mdl s.activeModels }
  | DispatcherOp.finish mdl =>
      { s with activeModels := s.activeModels.erase mdl }

/-! ### Session layer (`src/networkClient.js`): reconnect, close, heartbeat -/

/-- The session-lifecycle fields of `NetworkClient`: connection flag,
the `shouldReconnect` flag, the reconnect counter and its bound, the
timestamp of the last liveness acknowledgment, and whether the process
has terminated (`process.exit` in `reconnect`). -/
structure SessionState where
  isConnected : Bool
  shouldReconnect : Bool
  reconnectAttempts : Nat
  maxReconnectAttempts : Nat
  lastPong : Nat
  terminated : Bool
deriving DecidableEq, Repr

/-- The constructor's session-lifecycle initialization:
`shouldReconnect = true`, `reconnectAttempts = 0`,
`maxReconnectAttempts = 5`. -/
def initialSession : SessionState :=
  { isConnected := false
    shouldReconnect := true
    reconnectAttempts := 0
    maxReconnectAttempts := 5
    lastPong := 0
    terminated := false }

/-- One invocation of `reconnect()`.  Returns the new state and whether
a fresh connection attempt was issued (`await this.connect()`
reached).  The source: bail out if `shouldReconnect` is false;
increment `reconnectAttempts`; if the counter now exceeds
`maxReconnectAttempts`, clean up and `process.exit(1)` (modeled as the
absorbing `terminated` flag); otherwise wait `reconnectDelay` and issue
a connection attempt.  A terminated process runs nothing. -/
def reconnectStep (s : SessionState) : SessionState × Bool :=
  if s.terminated then (s, false)
  else if !s.shouldReconnect then (s, false)
  else
    let a := s.reconnectAttempts + 1
    if s.maxReconnectAttempts < a then
      ({ s with reconnectAttempts := a, terminated := true }, false)
    else
      ({ s with reconnectAttempts := a }, true)

/-- Iterate `reconnectStep` — the state after `n` invocations of
`reconnect()`, each triggered by the failure of the previous connection
attempt (or, for the first, by the loss of the established
connection). -/
def reconnIter (s : SessionState) : Nat → SessionState
  | 0 => s
  | n + 1 => (reconnectStep (reconnIter s n)).1

/-- The `ws.on('open', ...)` handler's lifecycle effect:
`isConnected = true` and `reconnectAttempts = 0` (the same reset is
repeated at the successful-connect line of `reconnect()`). -/
def handleOpenEvent (s : SessionState) : SessionState :=
  { s with isConnected := true, reconnectAttempts := 0 }

/-- The `ws.on('close', (code, reason))` handler.  Returns the new
state, whether a reconnection attempt was issued, and the fatal error
surfaced, if any.  Source: set `isConnected = false`; on close code
4001 report `'Authentication failed'` and clear `shouldReconnect`
(rejecting the connect promise — no reconnect); on code 1000 or when
`shouldReconnect` is already false, do nothing further; otherwise call
`reconnect()`. -/
def handleCloseEvent (s : SessionState) (code : Nat) : SessionState × Bool × Option String :=
  let s1 := { s with isConnected := false }
  if code == 4001 then
    ({ s1 with shouldReconnect := false }, false, some "Authentication failed")
  else if code == 1000 || !s1.shouldReconnect then
    (s1, false, none)
  else
    ((reconnectStep s1).1, (reconnectStep s1).2, none)

/-- `setInterval(..., 15000)` — the heartbeat monitor's fixed check
interval, in milliseconds. -/
def heartbeatIntervalMs : Nat := 15000

/-- The staleness threshold `45000` ms in
`Date.now() - this.lastPong > 45000`. -/
def pongTimeoutMs : Nat := 45000

/-- The staleness test of the heartbeat monitor:
`Date.now() - this.lastPong > 45000` (timestamps in milliseconds;
natural subtraction agrees with JavaScript here because a clock reading
earlier than `lastPong` is neither possible nor stale). -/
def connectionStale (now lastPong : Nat) : Bool :=
  decide (pongTimeoutMs < now - lastPong)

/-- One firing of the heartbeat monitor's interval callback at clock
time `now`: if the connection is stale, `this.reconnect()` is called
(tearing down the socket and issuing a reconnection attempt), otherwise
nothing happens.  Returns the new state and whether a reconnection
attempt was issued. -/
def heartbeatTick (s : SessionState) (now : Nat) : SessionState × Bool :=
  if connectionStale now s.lastPong then reconnectStep s else (s, false)

/-- The session-lifecycle events that can reach a live session: a close
frame with a status code, a successful open, a heartbeat-monitor firing
at some clock time, and an external request to (re)connect (`connect()`
checks `shouldReconnect` on entry and refuses when it is cleared). -/
inductive SessEvent where
  | close (code : Nat)
  | opened
  | tick (now : Nat)
  | connectRequested
deriving DecidableEq, Repr

/-- Effect of one session event; the Boolean records whether the event
issued a fresh connection attempt.  A terminated process processes no
events. -/
def sessStep (s : SessionState) : SessEvent → SessionState × Bool
  | SessEvent.close code =>
      if s.terminated then (s, false)
      else ((handleCloseEvent s code).1, (handleCloseEvent s code).2.1)
  | SessEvent.opened =>
      if s.terminated then (s, false) else (handleOpenEvent s, false)
  | SessEvent.tick now =>
      if s.terminated then (s, false) else heartbeatTick s now
  | SessEvent.connectRequested =>
      if s.terminated then (s, false)
      else if s.shouldReconnect then (s, true) else (s, false)

/-- Whether any event of the trace `evs`, run from `s`, issues a
connection attempt. -/
def runIssues (s : SessionState) : List SessEvent → Bool
  | [] => false
  | e :: evs => (sessStep s e).2 || runIssues (sessStep s e).1 evs

/-! ### Sample inputs used by witnesses and counterexamples -/

/-- A backend that fails every call; the claims about paths that never
reach the backend are insensitive to it. -/
def sampleBackend : Backend := fun _ _ _ => Except.error "backend failure"

/-- A fixed successful completion, used by witnesses for the success
path. -/
def sampleResult : CompletionResult :=
  { choices := [{ message := { role := "assistant", content := "hello" }
                  finish_reason := "stop" }]
    usage := { prompt_tokens := 1, completion_tokens := 2, total_tokens := 3 } }

/-- A backend that answers every call with `sampleResult`. -/
def okBackend : Backend := fun _ _ _ => Except.ok sampleResult

/-- A saturated client: two models in flight, bound 2, and a third
registered model `m3` that is not in flight. -/
def saturatedState : ClientState :=
  { models := [{ name := "m3", type := "ollama" }]
    activeModels := {"m1", "m2"}
    maxConcurrentModels := 2
    totalRequestsHandled := 0
    totalTokensProcessed := 0 }

/-- A request for the registered but not-in-flight model `m3`. -/
def requestM3 : WorkRequest :=
  { requestId := "r1", model := "m3", messages := [], temperature := none, max_tokens := none }

/-- A saturated client whose registered model `m1` is itself one of the
two in-flight models. -/
def saturatedBusyState : ClientState :=
  { models := [{ name := "m1", type := "ollama" }]
    activeModels := {"m1", "m2"}
    maxConcurrentModels := 2
    totalRequestsHandled := 0
    totalTokensProcessed := 0 }

/-- A request for the already-in-flight model `m1`. -/
def requestM1 : WorkRequest :=
  { requestId := "r2", model := "m1", messages := [], temperature := none, max_tokens := none }

/-- A client that registers only `mistral`. -/
def mistralOnlyState : ClientState := initClientState [{ name := "mistral", type := "ollama" }] 2

/-- A request for a model that is not registered. -/
def requestUnknown : WorkRequest :=
  { requestId := "r3", model := "missing-model", messages := [], temperature := none
    max_tokens := none }

/-! ### Dispatcher lemmas -/

/-- Unfolding `handleCompletionRequest` when the model lookup fails. -/
lemma handleCompletionRequest_of_find_none (b : Backend) (s : ClientState) (m : WorkRequest)
    (hfind : s.models.find? (fun mi => mi.name == m.model) = none) :
    handleCompletionRequest b s m =
      (s, sendErrorResponse m.requestId ("Model " ++ m.model ++ " not available")) := by
  unfold handleCompletionRequest
  rw [hfind]

/-- Unfolding `handleCompletionRequest` on the concurrency-rejection
path. -/
lemma handleCompletionRequest_of_rejected (b : Backend) (s : ClientState) (m : WorkRequest)
    (mi : ModelInfo) (hfind : s.models.find? (fun x => x.name == m.model) = some mi)
    (hc : s.maxConcurrentModels ≤ s.activeModels.card ∧ m.model ∉ s.activeModels) :
    handleCompletionRequest b s m =
      ({ s with activeModels := s.activeModels.erase m.model },
        sendErrorResponse m.requestId "Maximum concurrent models reached") := by
  unfold handleCompletionRequest
  simp only [hfind]
  rw [if_pos hc]

/-- Unfolding `handleCompletionRequest` on the admitted path, given the
backend outcome. -/
lemma handleCompletionRequest_of_admitted (b : Backend) (s : ClientState) (m : WorkRequest)
    (mi : ModelInfo) (hfind : s.models.find? (fun x => x.name == m.model) = some mi)
    (hc : ¬(s.maxConcurrentModels ≤ s.activeModels.card ∧ m.model ∉ s.activeModels)) :
    handleCompletionRequest b s m =
      match b mi m.messages
          { temperature := m.temperature, max_tokens := m.max_tokens } with
      | Except.ok response =>
          ({ s with
              activeModels := (insert m.model s.activeModels).erase m.model
              totalTokensProcessed := s.totalTokensProcessed + response.usage.total_tokens
              totalRequestsHandled := s.totalRequestsHandled + 1 },
            { requestId := m.requestId, response := RespPayload.ok response })
      | Except.error emsg =>
          ({ s with activeModels := (insert m.model s.activeModels).erase m.model },
            sendErrorResponse m.requestId emsg) := by
  unfold handleCompletionRequest
  simp only [hfind]
  rw [if_neg hc]

/-- C1 (amended).  For every `completion_request` whose model is
registered: if the in-flight set already has at least
`maxConcurrentModels` members and the requested model is not itself
in flight, the dispatcher rejects immediately — the response is
`sendErrorResponse(requestId, "Maximum concurrent models reached")`,
the backend is never invoked (the outcome is the same for every
backend), and the in-flight set is unchanged; the error code is the
client's fixed `"internal_error"`, not `"concurrency_exceeded"` as the
claim states.  A request for a model already in flight is admitted
regardless of the limit: the backend's successful result is returned. -/
theorem concurrency_rejection (b : Backend) (s : ClientState) (m : WorkRequest) (mi : ModelInfo)
    (hfind : s.models.find? (fun x => x.name == m.model) = some mi) :
    (s.maxConcurrentModels ≤ s.activeModels.card → m.model ∉ s.activeModels →
      (handleCompletionRequest b s m).2 =
          sendErrorResponse m.requestId "Maximum concurrent models reached" ∧
        (handleCompletionRequest b s m).2.errorCode = some "internal_error" ∧
        (∀ b2 : Backend, handleCompletionRequest b2 s m = handleCompletionRequest b s m) ∧
        (handleCompletionRequest b s m).1.activeModels = s.activeModels) ∧
    (m.model ∈ s.activeModels →
      ∀ r, b mi m.messages { temperature := m.temperature, max_tokens := m.max_tokens } =
          Except.ok r →
        (handleCompletionRequest b s m).2 =
          { requestId := m.requestId, response := RespPayload.ok r }) := by
  constructor
  · intro hcard hnotin
    have hc : s.maxConcurrentModels ≤ s.activeModels.card ∧ m.model ∉ s.activeModels :=
      ⟨hcard, hnotin⟩
    have h := handleCompletionRequest_of_rejected b s m mi hfind hc
    refine ⟨by rw [h], by rw [h]; rfl, ?_, ?_⟩
    · intro b2
      rw [h, handleCompletionRequest_of_rejected b2 s m mi hfind hc]
    · rw [h]
      exact Finset.erase_eq_of_not_mem hnotin
  · intro hmem r hb
    have hc : ¬(s.maxConcurrentModels ≤ s.activeModels.card ∧ m.model ∉ s.activeModels) := by
      intro hcontra
      exact hcontra.2 hmem
    have h := handleCompletionRequest_of_admitted b s m mi hfind hc
    rw [h, hb]

/-- C1 witness: with two models in flight, bound 2 and the registered
model `m3` not in flight, the request is rejected with the error code
`"internal_error"` and no backend runs; and a request for the in-flight
model `m1` of a saturated client is admitted and completes. -/
theorem concurrency_rejection_witness :
    ((handleCompletionRequest sampleBackend saturatedState requestM3).2.errorCode =
        some "internal_error" ∧
      handleCompletionRequest okBackend saturatedState requestM3 =
        handleCompletionRequest sampleBackend saturatedState requestM3) ∧
    (handleCompletionRequest okBackend saturatedBusyState requestM1).2 =
      { requestId := "r2", response := RespPayload.ok sampleResult } := by
  constructor
  · have h := (concurrency_rejection sampleBackend saturatedState requestM3
      { name := "m3", type := "ollama" } (by decide)) |>.1 (by decide) (by decide)
    exact ⟨h.2.1, h.2.2.1 okBackend⟩
  · exact (concurrency_rejection okBackend saturatedBusyState requestM1
      { name := "m1", type := "ollama" } (by decide)) |>.2 (by decide) sampleResult rfl

/-- C1 counterexample: the claim as stated requires the rejection's
error code to be `"concurrency_exceeded"`, but the client's rejection of
a request for the registered, not-in-flight model `m3` of a saturated
client carries the code `"internal_error"`. -/
theorem concurrency_rejection_code_counterexample :
    (handleCompletionRequest sampleBackend saturatedState requestM3).2.errorCode =
      some "internal_error" ∧
    (handleCompletionRequest sampleBackend saturatedState requestM3).2.errorCode ≠
      some "concurrency_exceeded" := by
  constructor
  · decide
  · decide

/-- C2 (amended).  For every `completion_request` naming a model that is
not registered, the client sends exactly the one response
`sendErrorResponse(requestId, "Model <name> not available")` — carrying
the request's `requestId` — and leaves its state untouched; no backend
call occurs (the outcome is the same for every backend).  The error
code is the client's fixed `"internal_error"`, not `"model_unavailable"`
as the claim states. -/
theorem unknown_model_rejection (b : Backend) (s : ClientState) (m : WorkRequest)
    (hfind : s.models.find? (fun mi => mi.name == m.model) = none) :
    handleCompletionRequest b s m =
      (s, sendErrorResponse m.requestId ("Model " ++ m.model ++ " not available")) ∧
    (handleCompletionRequest b s m).2.requestId = m.requestId ∧
    (handleCompletionRequest b s m).2.errorCode = some "internal_error" ∧
    ∀ b2 : Backend, handleCompletionRequest b2 s m = handleCompletionRequest b s m := by
  have h := handleCompletionRequest_of_find_none b s m hfind
  refine ⟨h, by rw [h]; rfl, by rw [h]; rfl, fun b2 => ?_⟩
  rw [h, handleCompletionRequest_of_find_none b2 s m hfind]

/-- C2 witness: a request for `missing-model` against a client that
registers only `mistral` is answered by the single error response with
the request's id, with no backend call. -/
theorem unknown_model_rejection_witness :
    handleCompletionRequest sampleBackend mistralOnlyState requestUnknown =
      (mistralOnlyState,
        sendErrorResponse requestUnknown.requestId
          ("Model " ++ requestUnknown.model ++ " not available")) ∧
    handleCompletionRequest okBackend mistralOnlyState requestUnknown =
      handleCompletionRequest sampleBackend mistralOnlyState requestUnknown := by
  have h := unknown_model_rejection sampleBackend mistralOnlyState requestUnknown (by decide)
  exact ⟨h.1, h.2.2.2 okBackend⟩

/-- C2 counterexample: the claim as stated requires the unknown-model
response's error code to be `"model_unavailable"`, but the client's
response to a request for the unregistered `missing-model` carries the
code `"internal_error"`. -/
theorem unknown_model_code_counterexample :
    (handleCompletionRequest sampleBackend mistralOnlyState requestUnknown).2.errorCode =
      some "internal_error" ∧
    (handleCompletionRequest sampleBackend mistralOnlyState requestUnknown).2.errorCode ≠
      some "model_unavailable" := by
  constructor
  · decide
  · decide

/-- C3.  `handleCompletionRequest` is a total function — every throw in
its body is caught by its own `try`/`catch` (the concurrency throw and
any backend exception) or avoided by an early `return` (unknown model),
so the handler always resolves to the inbound message loop — and it
produces exactly one `completion_response`, always carrying the
request's `requestId`: the backend's `CompletionResult` on success, and
an `ErrorDetail` (the client's fixed `server_error`/`internal_error`
shape with the failure's message) on each failure path — unknown model,
concurrency rejection, and backend error. -/
theorem dispatcher_always_responds (b : Backend) (s : ClientState) (m : WorkRequest) :
    (handleCompletionRequest b s m).2.requestId = m.requestId ∧
    (s.models.find? (fun mi => mi.name == m.model) = none →
      (handleCompletionRequest b s m).2.response =
        RespPayload.err
          { message := "Model " ++ m.model ++ " not available"
            type := "server_error", code := "internal_error" }) ∧
    ∀ mi, s.models.find? (fun x => x.name == m.model) = some mi →
      ((s.maxConcurrentModels ≤ s.activeModels.card ∧ m.model ∉ s.activeModels) →
        (handleCompletionRequest b s m).2.response =
          RespPayload.err
            { message := "Maximum concurrent models reached"
              type := "server_error", code := "internal_error" }) ∧
      (¬(s.maxConcurrentModels ≤ s.activeModels.card ∧ m.model ∉ s.activeModels) →
        (∀ r, b mi m.messages { temperature := m.temperature, max_tokens := m.max_tokens } =
            Except.ok r →
          (handleCompletionRequest b s m).2.response = RespPayload.ok r) ∧
        (∀ e, b mi m.messages { temperature := m.temperature, max_tokens := m.max_tokens } =
            Except.error e →
          (handleCompletionRequest b s m).2.response =
            RespPayload.err
              { message := e, type := "server_error", code := "internal_error" })) := by
  refine ⟨?_, ?_, ?_⟩
  · cases hfind : s.models.find? (fun mi => mi.name == m.model) with
    | none => rw [handleCompletionRequest_of_find_none b s m hfind]; rfl
    | some mi =>
        by_cases hc : s.maxConcurrentModels ≤ s.activeModels.card ∧ m.model ∉ s.activeModels
        · rw [handleCompletionRequest_of_rejected b s m mi hfind hc]; rfl
        · rw [handleCompletionRequest_of_admitted b s m mi hfind hc]
          cases b mi m.messages { temperature := m.temperature, max_tokens := m.max_tokens } with
          | ok r => rfl
          | error e => rfl
  · intro hfind
    rw [handleCompletionRequest_of_find_none b s m hfind]; rfl
  · intro mi hfind
    constructor
    · intro hc
      rw [handleCompletionRequest_of_rejected b s m mi hfind hc]; rfl
    · intro hc
      constructor
      · intro r hb
        rw [handleCompletionRequest_of_admitted b s m mi hfind hc, hb]
      · intro e hb
        rw [handleCompletionRequest_of_admitted b s m mi hfind hc, hb]; rfl

/-- C3 witness: at concrete inputs, the handler answers the unknown
model `missing-model` with an error response carrying the request's id,
answers an admitted request against a succeeding backend with the
result, and answers an admitted request against a failing backend with
an error response — one response each, same `requestId`. -/
theorem dispatcher_always_responds_witness :
    (handleCompletionRequest sampleBackend mistralOnlyState requestUnknown).2.requestId = "r3" ∧
    (handleCompletionRequest sampleBackend mistralOnlyState requestUnknown).2.response =
      RespPayload.err
        { message := "Model missing-model not available"
          type := "server_error", code := "internal_error" } ∧
    (handleCompletionRequest okBackend saturatedBusyState requestM1).2.response =
      RespPayload.ok sampleResult ∧
    (handleCompletionRequest sampleBackend saturatedBusyState requestM1).2.response =
      RespPayload.err
        { message := "backend failure", type := "server_error", code := "internal_error" } := by
  refine ⟨?_, ?_, ?_, ?_⟩
  · exact (dispatcher_always_responds sampleBackend mistralOnlyState requestUnknown).1
  · exact (dispatcher_always_responds sampleBackend mistralOnlyState requestUnknown).2.1
      (by decide)
  · exact (((dispatcher_always_responds okBackend saturatedBusyState requestM1).2.2
      { name := "m1", type := "ollama" } (by decide)).2 (by decide)).1 sampleResult rfl
  · exact (((dispatcher_always_responds sampleBackend saturatedBusyState requestM1).2.2
      { name := "m1", type := "ollama" } (by decide)).2 (by decide)).2 "backend failure" rfl

/-- C5.  Whenever the model lookup succeeds — in particular whenever the
request was admitted into `activeModels` — the handler's `finally`
block deletes the request's entry on every exit (success, error
response, and backend exception alike), so the dispatcher's final
in-flight set is exactly `activeModels.erase model` and the admission
slot is always released.  The deletion is keyed by the model name, so
it happens even while another in-flight request for the same model is
still running, exactly as the claim describes. -/
theorem admission_slot_released (b : Backend) (s : ClientState) (m : WorkRequest)
    (mi : ModelInfo) (hfind : s.models.find? (fun x => x.name == m.model) = some mi) :
    (handleCompletionRequest b s m).1.activeModels = s.activeModels.erase m.model ∧
    m.model ∉ (handleCompletionRequest b s m).1.activeModels := by
  have hstate : (handleCompletionRequest b s m).1.activeModels = s.activeModels.erase m.model := by
    by_cases hc : s.maxConcurrentModels ≤ s.activeModels.card ∧ m.model ∉ s.activeModels
    · rw [handleCompletionRequest_of_rejected b s m mi hfind hc]
    · rw [handleCompletionRequest_of_admitted b s m mi hfind hc]
      cases b mi m.messages { temperature := m.temperature, max_tokens := m.max_tokens } with
      | ok r => exact Finset.erase_insert_eq_erase s.activeModels m.model
      | error e => exact Finset.erase_insert_eq_erase s.activeModels m.model
  refine ⟨hstate, ?_⟩
  rw [hstate]
  exact Finset.not_mem_erase m.model s.activeModels

/-- C5 witness: a request for the in-flight model `m1` (which a second
in-flight request shares) leaves `m1` removed from the final in-flight
set on the success path, and likewise on the backend-failure path. -/
theorem admission_slot_released_witness :
    (handleCompletionRequest okBackend saturatedBusyState requestM1).1.activeModels =
      saturatedBusyState.activeModels.erase "m1" ∧
    ("m1" : String) ∉
      (handleCompletionRequest sampleBackend saturatedBusyState requestM1).1.activeModels := by
  constructor
  · exact (admission_slot_released okBackend saturatedBusyState requestM1
      { name := "m1", type := "ollama" } (by decide)).1
  · exact (admission_slot_released sampleBackend saturatedBusyState requestM1
      { name := "m1", type := "ollama" } (by decide)).2

/-- A `DispatcherOp` never changes the concurrency bound. -/
lemma dispatcherStep_maxConcurrentModels (s : ClientState) (op : DispatcherOp) :
    (dispatcherStep s op).maxConcurrentModels = s.maxConcurrentModels := by
  cases op with
  | acquire mdl =>
      by_cases hc : s.maxConcurrentModels ≤ s.activeModels.card ∧ mdl ∉ s.activeModels
      · rw [dispatcherStep, if_pos hc]
      · rw [dispatcherStep, if_neg hc]
  | finish mdl => rfl

/-- A `DispatcherOp` preserves `activeModels.card ≤ maxConcurrentModels`:
the guarded admission either rejects (set unchanged), inserts an
already-present model (set unchanged), or inserts a new model while the
cardinality is still below the bound; a finish only erases. -/
lemma dispatcherStep_card_le (s : ClientState) (op : DispatcherOp)
    (h : s.activeModels.card ≤ s.maxConcurrentModels) :
    (dispatcherStep s op).activeModels.card ≤ s.maxConcurrentModels := by
  cases op with
  | acquire mdl =>
      by_cases hc : s.maxConcurrentModels ≤ s.activeModels.card ∧ mdl ∉ s.activeModels
      · rw [dispatcherStep, if_pos hc]; exact h
      · rw [dispatcherStep, if_neg hc]
        by_cases hmem : mdl ∈ s.activeModels
        · simpa [Finset.insert_eq_self.mpr hmem] using h
        · have hlt : s.activeModels.card < s.maxConcurrentModels := by
            rcases not_and_or.mp hc with hcard | hmem2
            · omega
            · exact absurd (not_not.mp hmem2) hmem
          calc (insert mdl s.activeModels).card
              ≤ s.activeModels.card + 1 := Finset.card_insert_le mdl s.activeModels
            _ ≤ s.maxConcurrentModels := hlt
  | finish mdl =>
      calc (s.activeModels.erase mdl).card
          ≤ s.activeModels.card := Finset.card_erase_le
        _ ≤ s.maxConcurrentModels := h

/-- Folding any operation sequence preserves the bound. -/
lemma foldl_dispatcherStep_card_le (ops : List DispatcherOp) (s : ClientState)
    (h : s.activeModels.card ≤ s.maxConcurrentModels) :
    (ops.foldl dispatcherStep s).activeModels.card ≤
      (ops.foldl dispatcherStep s).maxConcurrentModels := by
  induction ops generalizing s with
  | nil => exact h
  | cons op ops ih =>
      simp only [List.foldl_cons]
      apply ih
      rw [dispatcherStep_maxConcurrentModels]
      exact dispatcherStep_card_le s op h

/-- Folding any operation sequence preserves the concurrency bound
field itself. -/
lemma foldl_dispatcherStep_maxConcurrentModels (ops : List DispatcherOp) (s : ClientState) :
    (ops.foldl dispatcherStep s).maxConcurrentModels = s.maxConcurrentModels := by
  induction ops generalizing s with
  | nil => rfl
  | cons op ops ih =>
      simp only [List.foldl_cons]
      rw [ih, dispatcherStep_maxConcurrentModels]

/-- C4.  Starting from the constructor's state (`activeModels = new
Set()`, any registered models and any bound — the default bound being
`defaultMaxConcurrentModels = 2`), no sequence of dispatcher operations
— guarded admissions and handler-exit deletions, in any interleaving —
ever makes the in-flight set's cardinality exceed
`maxConcurrentModels`. -/
theorem activeModels_card_le_bound (models : List ModelInfo) (bound : Nat)
    (ops : List DispatcherOp) :
    (ops.foldl dispatcherStep (initClientState models bound)).activeModels.card ≤ bound ∧
    defaultMaxConcurrentModels = 2 := by
  constructor
  · have h0 : (initClientState models bound).activeModels.card ≤
        (initClientState models bound).maxConcurrentModels := by
      simp [initClientState]
    have h := foldl_dispatcherStep_card_le ops (initClientState models bound) h0
    rwa [foldl_dispatcherStep_maxConcurrentModels] at h
  · rfl

/-- A terminated session is absorbing for `reconnectStep`: nothing runs
after `process.exit(1)`. -/
lemma reconnectStep_of_terminated (s : SessionState) (h : s.terminated = true) :
    reconnectStep s = (s, false) := by
  rw [reconnectStep, if_pos h]

/-- Iterating `reconnectStep` from a terminated session stays put. -/
lemma reconnIter_of_terminated (s : SessionState) (h : s.terminated = true) :
    ∀ n, reconnIter s n = s := by
  intro n
  induction n with
  | zero => rfl
  | succ n ih =>
      show (reconnectStep (reconnIter s n)).1 = s
      rw [ih, reconnectStep_of_terminated s h]

/-- C6.  With the constructor's budget `maxReconnectAttempts = 5`:
reading `reconnIter initialSession k` as the session after the `k`-th
invocation of `reconnect()` — the first triggered by losing the
established connection, each later one by the failure of the connection
attempt the previous invocation issued — the first five invocations
each issue a connection attempt and leave the session live, so after
exactly five consecutive failed connection attempts the sixth
invocation runs, issues nothing, and terminates the session; a
terminated session issues no further attempts, ever.  And every
successful entry into the connected state (`ws.on('open')`, or the
successful-connect line of `reconnect()` itself) resets the attempt
counter to 0, so the budget applies only to consecutive failures. -/
theorem reconnect_budget_exhaustion :
    (∀ k, k < 5 →
      (reconnectStep (reconnIter initialSession k)).2 = true ∧
      (reconnIter initialSession (k + 1)).terminated = false) ∧
    (reconnectStep (reconnIter initialSession 5)).2 = false ∧
    (reconnIter initialSession 6).terminated = true ∧
    (∀ s : SessionState, s.terminated = true →
      ∀ n, reconnIter s n = s ∧ (reconnectStep s).2 = false) ∧
    (∀ s : SessionState, (handleOpenEvent s).reconnectAttempts = 0) := by
  refine ⟨by decide, by decide, by decide, ?_, fun s => rfl⟩
  intro s h n
  exact ⟨reconnIter_of_terminated s h n, by rw [reconnectStep_of_terminated s h]⟩

/-- C6 witness: the first invocation of `reconnect()` issues an attempt,
a concretely terminated session stays terminated and issues nothing
over three further invocations, and an open event resets a concrete
counter. -/
theorem reconnect_budget_exhaustion_witness :
    (reconnectStep (reconnIter initialSession 0)).2 = true ∧
    reconnIter { initialSession with terminated := true } 3 =
      { initialSession with terminated := true } ∧
    (handleOpenEvent { initialSession with reconnectAttempts := 4 }).reconnectAttempts = 0 := by
  refine ⟨(reconnect_budget_exhaustion.1 0 (by decide)).1, ?_, ?_⟩
  · exact (reconnect_budget_exhaustion.2.2.2.1 { initialSession with terminated := true } rfl 3).1
  · exact reconnect_budget_exhaustion.2.2.2.2 { initialSession with reconnectAttempts := 4 }

/-- After any event, a session whose `shouldReconnect` flag is cleared
still has it cleared and has issued no connection attempt: no handler
ever sets the flag back to true, `reconnect()` bails out on it, and
`connect()` refuses to run. -/
lemma sessStep_of_not_shouldReconnect (s : SessionState) (e : SessEvent)
    (h : s.shouldReconnect = false) :
    (sessStep s e).1.shouldReconnect = false ∧ (sessStep s e).2 = false := by
  cases e with
  | close code =>
      by_cases ht : s.terminated = true
      · rw [sessStep, if_pos ht]; exact ⟨h, rfl⟩
      · rw [sessStep, if_neg ht]
        by_cases hcode : (code == 4001) = true
        · rw [handleCloseEvent, if_pos hcode]; exact ⟨rfl, rfl⟩
        · rw [handleCloseEvent, if_neg hcode]
          have hor : ((code == 1000) || !({ s with isConnected := false }).shouldReconnect) =
              true := by
            simp [h]
          rw [if_pos hor]
          exact ⟨h, rfl⟩
  | opened =>
      by_cases ht : s.terminated = true
      · rw [sessStep, if_pos ht]; exact ⟨h, rfl⟩
      · rw [sessStep, if_neg ht]; exact ⟨h, rfl⟩
  | tick now =>
      by_cases ht : s.terminated = true
      · rw [sessStep, if_pos ht]; exact ⟨h, rfl⟩
      · rw [sessStep, if_neg ht]
        rw [heartbeatTick]
        by_cases hstale : connectionStale now s.lastPong = true
        · rw [if_pos hstale]
          by_cases ht2 : s.terminated = true
          · rw [reconnectStep, if_pos ht2]; exact ⟨h, rfl⟩
          · rw [reconnectStep, if_neg ht2]
            have : (!s.shouldReconnect) = true := by simp [h]
            rw [if_pos this]
            exact ⟨h, rfl⟩
        · rw [if_neg hstale]; exact ⟨h, rfl⟩
  | connectRequested =>
      by_cases ht : s.terminated = true
      · rw [sessStep, if_pos ht]; exact ⟨h, rfl⟩
      · rw [sessStep, if_neg ht]
        have : ¬s.shouldReconnect = true := by simp [h]
        rw [if_neg this]
        exact ⟨h, rfl⟩

/-- Once `shouldReconnect` is cleared, no trace of session events ever
issues a connection attempt. -/
lemma runIssues_of_not_shouldReconnect (evs : List SessEvent) (s : SessionState)
    (h : s.shouldReconnect = false) :
    runIssues s evs = false := by
  induction evs generalizing s with
  | nil => rfl
  | cons e evs ih =>
      have hstep := sessStep_of_not_shouldReconnect s e h
      show ((sessStep s e).2 || runIssues (sessStep s e).1 evs) = false
      rw [hstep.2, ih (sessStep s e).1 hstep.1]
      rfl

/-- C7.  A close with the reserved authentication-failure code 4001 is
terminal: the handler surfaces the fatal error
`"Authentication failed"`, clears `shouldReconnect`, leaves the
connected flag down, and issues no reconnection attempt; and from the
resulting state, no sequence of subsequent session events — closes,
opens, heartbeat firings, or connect requests — ever issues a
connection attempt, because nothing ever sets `shouldReconnect` again
and both `reconnect()` and `connect()` refuse to run without it. -/
theorem auth_close_is_terminal (s : SessionState) :
    (handleCloseEvent s 4001).2.2 = some "Authentication failed" ∧
    (handleCloseEvent s 4001).1.shouldReconnect = false ∧
    (handleCloseEvent s 4001).1.isConnected = false ∧
    (handleCloseEvent s 4001).2.1 = false ∧
    ∀ evs : List SessEvent, runIssues (handleCloseEvent s 4001).1 evs = false := by
  have h4001 : ((4001 : Nat) == 4001) = true := by decide
  have hclose : handleCloseEvent s 4001 =
      ({ s with isConnected := false, shouldReconnect := false }, false,
        some "Authentication failed") := by
    rw [handleCloseEvent, if_pos h4001]
  refine ⟨by rw [hclose], by rw [hclose], by rw [hclose], by rw [hclose], fun evs => ?_⟩
  apply runIssues_of_not_shouldReconnect
  rw [hclose]

/-- C8.  Let `t0` be the time the heartbeat monitor's 15-second
interval was installed and `p ≥ t0` the time of the last recorded
liveness acknowledgment (`lastPong`).  The monitor fires at the times
`t0 + 15000·(j+1)`.  Every firing at or before `p + 45000` finds the
connection fresh and does nothing; and there is a firing — the
`(⌊(p + 45000 − t0)/15000⌋ + 1)`-th — that finds the connection stale
and lands within one monitor interval after the staleness threshold
elapses.  A stale firing on a live session (flag set, budget not
exhausted) calls `reconnect()`, which increments the attempt counter
and issues a reconnection attempt, forcing the session out of the
connected state. -/
theorem heartbeat_staleness_detection (t0 p : Nat) (h : t0 ≤ p) :
    connectionStale
      (t0 + heartbeatIntervalMs * ((p + pongTimeoutMs - t0) / heartbeatIntervalMs + 1)) p =
      true ∧
    t0 + heartbeatIntervalMs * ((p + pongTimeoutMs - t0) / heartbeatIntervalMs + 1) ≤
      p + pongTimeoutMs + heartbeatIntervalMs ∧
    (∀ j : Nat, t0 + heartbeatIntervalMs * (j + 1) ≤ p + pongTimeoutMs →
      connectionStale (t0 + heartbeatIntervalMs * (j + 1)) p = false) ∧
    (∀ (s : SessionState) (now : Nat), connectionStale now s.lastPong = true →
      s.terminated = false → s.shouldReconnect = true →
      s.reconnectAttempts < s.maxReconnectAttempts →
      heartbeatTick s now = ({ s with reconnectAttempts := s.reconnectAttempts + 1 }, true)) := by
  refine ⟨?_, ?_, ?_, ?_⟩
  · simp only [connectionStale, heartbeatIntervalMs, pongTimeoutMs, decide_eq_true_eq]
    omega
  · simp only [heartbeatIntervalMs, pongTimeoutMs]
    omega
  · intro j hj
    simp only [heartbeatIntervalMs, pongTimeoutMs] at hj
    simp only [connectionStale, heartbeatIntervalMs, pongTimeoutMs, decide_eq_false_iff_not]
    omega
  · intro s now hstale hterm hshould hbudget
    have hnb : ¬ s.maxReconnectAttempts < s.reconnectAttempts + 1 := by omega
    simp [heartbeatTick, hstale, reconnectStep, hterm, hshould, hnb]

/-- C8 witness: with the monitor installed at time 0 and the last
acknowledgment at time 0, the computed firing is stale and lands within
`45000 + 15000` ms; and a concrete stale firing at time 50000 on the
fresh session issues a reconnection attempt. -/
theorem heartbeat_staleness_detection_witness :
    connectionStale
      (0 + heartbeatIntervalMs * ((0 + pongTimeoutMs - 0) / heartbeatIntervalMs + 1)) 0 = true ∧
    0 + heartbeatIntervalMs * ((0 + pongTimeoutMs - 0) / heartbeatIntervalMs + 1) ≤
      0 + pongTimeoutMs + heartbeatIntervalMs ∧
    heartbeatTick initialSession 50000 =
      ({ initialSession with reconnectAttempts := 1 }, true) := by
  refine ⟨(heartbeat_staleness_detection 0 0 (by decide)).1,
    (heartbeat_staleness_detection 0 0 (by decide)).2.1, ?_⟩
  exact (heartbeat_staleness_detection 0 0 (by decide)).2.2.2 initialSession 50000
    (by decide) rfl rfl (by decide)

/-- The character-count fold of `_estimateTokenCount`, expressed as a
map-sum. -/
lemma foldl_content_length (msgs : List Msg) (acc : Nat) :
    msgs.foldl (fun a msg => a + msg.content.length) acc =
      acc + (msgs.map (fun msg => msg.content.length)).sum := by
  induction msgs generalizing acc with
  | nil => simp
  | cons m ms ih => simp [ih, Nat.add_assoc]

/-- C9 (amended).  Every translated success carries usage counts.  The
Ollama adapter synthesizes them: `prompt_tokens` is the length estimate
of the request messages, `completion_tokens` the estimate of the reply
message, and `total_tokens` their sum; the estimate is the total
character length of the messages' contents divided by 4 and rounded up
(`4·estimate` covers the character count and overshoots by less than
4).  The LM Studio adapter passes the backend's native usage through
when present — but when the backend reports none it falls back to
all-zero counts, not to the length-based estimate the claim states. -/
theorem usage_counts_synthesis (messages : List Msg) (respMessage : Msg)
    (choices : List Choice) (u : Usage) :
    (ollamaTranslate respMessage messages).usage.prompt_tokens = estimateTokenCount messages ∧
    (ollamaTranslate respMessage messages).usage.completion_tokens =
      estimateTokenCount [respMessage] ∧
    (ollamaTranslate respMessage messages).usage.total_tokens =
      (ollamaTranslate respMessage messages).usage.prompt_tokens +
        (ollamaTranslate respMessage messages).usage.completion_tokens ∧
    estimateTokenCount messages =
      ((messages.map (fun msg => msg.content.length)).sum + 3) / 4 ∧
    (messages.map (fun msg => msg.content.length)).sum ≤ 4 * estimateTokenCount messages ∧
    4 * estimateTokenCount messages < (messages.map (fun msg => msg.content.length)).sum + 4 ∧
    (lmStudioTranslate choices none).usage =
      { prompt_tokens := 0, completion_tokens := 0, total_tokens := 0 } ∧
    (lmStudioTranslate choices (some u)).usage = u := by
  have hest : estimateTokenCount messages =
      ((messages.map (fun msg => msg.content.length)).sum + 3) / 4 := by
    rw [estimateTokenCount]
    rw [foldl_content_length messages 0]
    rw [Nat.zero_add]
  refine ⟨rfl, rfl, rfl, hest, ?_, ?_, rfl, rfl⟩
  · rw [hest]; omega
  · rw [hest]; omega

/-- C9 counterexample: the claim as stated says a backend that reports
no native usage gets its counts synthesized via the length-based
estimate; but the LM Studio adapter, given a reply whose assistant
content is `"hello"` (5 characters, estimate `⌈5/4⌉ = 2`) and no native
usage, reports `completion_tokens = 0`, not the estimate. -/
theorem lmstudio_zero_usage_counterexample :
    (lmStudioTranslate
        [{ message := { role := "assistant", content := "hello" }, finish_reason := "stop" }]
        none).usage.completion_tokens = 0 ∧
    estimateTokenCount [{ role := "assistant", content := "hello" }] = 2 ∧
    (lmStudioTranslate
        [{ message := { role := "assistant", content := "hello" }, finish_reason := "stop" }]
        none).usage.completion_tokens ≠
      estimateTokenCount [{ role := "assistant", content := "hello" }] := by
  refine ⟨rfl, by decide, by decide⟩

/-- A backend that can observe only the generation options it is
actually handed: it reports whether the temperature it received is the
literal `some 0`. -/
def zeroProbeBackend : Backend := fun _ _ o =>
  if o.temperature = some 0 then Except.error "temperature zero" else Except.error "other"

/-- A backend that answers every call the way `zeroProbeBackend`
answers a zero-temperature call. -/
def constZeroBackend : Backend := fun _ _ _ => Except.error "temperature zero"

/-- A request for the in-flight model `m1` carrying the explicit wire
values `temperature: 0` and `max_tokens: 0`. -/
def requestM1Zero : WorkRequest :=
  { requestId := "r4", model := "m1", messages := [], temperature := some 0
    max_tokens := some 0 }

/-- C10.  The dispatcher forwards the wire message's raw `temperature`
and `max_tokens` to the adapter (its outcome depends on the backend
only through the backend's value at exactly those raw options), and
every adapter substitutes its defaults with JavaScript's `||`: the
effective temperature is never 0 and the effective `max_tokens` is
never 0, an explicit 0 is replaced by the same defaults as an absent
value, and those defaults are temperature `0.7` and `max_tokens`
`4096`; the three adapters use identical defaulting. -/
theorem zero_generation_params_defaulted :
    (∀ o : CallOpts,
      (ollamaOptions o).1 ≠ 0 ∧ (ollamaOptions o).2 ≠ 0 ∧
      lmStudioOptions o = ollamaOptions o ∧ exoOptions o = ollamaOptions o) ∧
    ollamaOptions { temperature := some 0, max_tokens := some 0 } =
      ollamaOptions { temperature := none, max_tokens := none } ∧
    ollamaOptions { temperature := none, max_tokens := none } = (7 / 10, 4096) ∧
    (∀ (b1 b2 : Backend) (s : ClientState) (m : WorkRequest),
      (∀ mi : ModelInfo,
        b1 mi m.messages { temperature := m.temperature, max_tokens := m.max_tokens } =
          b2 mi m.messages { temperature := m.temperature, max_tokens := m.max_tokens }) →
      handleCompletionRequest b1 s m = handleCompletionRequest b2 s m) := by
  refine ⟨?_, by simp [ollamaOptions, jsOrRat, jsOrNat], by simp [ollamaOptions, jsOrRat, jsOrNat], ?_⟩
  · intro o
    obtain ⟨t, mt⟩ := o
    refine ⟨?_, ?_, rfl, rfl⟩
    · cases t with
      | none =>
          show (7 / 10 : ℚ) ≠ 0
          norm_num
      | some x =>
          show (if x = 0 then (7 / 10 : ℚ) else x) ≠ 0
          by_cases hx : x = 0
          · rw [if_pos hx]; norm_num
          · rw [if_neg hx]; exact hx
    · cases mt with
      | none =>
          show (4096 : Nat) ≠ 0
          decide
      | some x =>
          show (if x = 0 then (4096 : Nat) else x) ≠ 0
          by_cases hx : x = 0
          · rw [if_pos hx]; decide
          · rw [if_neg hx]; exact hx
  · intro b1 b2 s m hagree
    cases hfind : s.models.find? (fun mi => mi.name == m.model) with
    | none =>
        rw [handleCompletionRequest_of_find_none b1 s m hfind,
          handleCompletionRequest_of_find_none b2 s m hfind]
    | some mi =>
        by_cases hc : s.maxConcurrentModels ≤ s.activeModels.card ∧ m.model ∉ s.activeModels
        · rw [handleCompletionRequest_of_rejected b1 s m mi hfind hc,
            handleCompletionRequest_of_rejected b2 s m mi hfind hc]
        · rw [handleCompletionRequest_of_admitted b1 s m mi hfind hc,
            handleCompletionRequest_of_admitted b2 s m mi hfind hc, hagree mi]

/-- C10 witness: a request carrying explicit zeros is dispatched with
exactly those raw options — a backend that distinguishes
`temperature: some 0` from everything else behaves identically to the
constant backend on it. -/
theorem zero_generation_params_defaulted_witness :
    handleCompletionRequest zeroProbeBackend saturatedBusyState requestM1Zero =
      handleCompletionRequest constZeroBackend saturatedBusyState requestM1Zero :=
  zero_generation_params_defaulted.2.2.2 zeroProbeBackend constZeroBackend
    saturatedBusyState requestM1Zero
    (fun mi => by simp [zeroProbeBackend, constZeroBackend, requestM1Zero])
